import Mathlib

/-!
Verification of the AutoSlides slide-layout composer (`tools/slides.py`,
`tools/images.py`) against its specification.

All lengths are in EMU (English Metric Units, 914400 per inch), the integer
unit used by the document library.  The module-level constants of
`tools/slides.py` are `Inches(...)` values, which are exact integers:
`Inches(0.4) = 365760`, `Inches(1.5) = 1371600`, `Inches(3.5) = 3200400`,
`Inches(3) = 2743200`.  The default presentation canvas is 10 in x 7.5 in,
i.e. 9144000 x 6858000 EMU.

Python `int(...)` applied to a nonnegative real value truncates, which for
nonnegative arguments coincides with the floor; the left-column ratio is
modelled as an exact rational.
-/

namespace AutoSlides

/-- `MARGIN_X = Inches(0.4)` from `tools/slides.py`. -/
def MARGIN_X : ℤ := 365760

/-- `MARGIN_Y_TOP = Inches(1.5)` from `tools/slides.py`. -/
def MARGIN_Y_TOP : ℤ := 1371600

/-- `IMAGE_MAX_W = Inches(3.5)` from `tools/slides.py`. -/
def IMAGE_MAX_W : ℤ := 3200400

/-- `IMAGE_MAX_H = Inches(3)` from `tools/slides.py`. -/
def IMAGE_MAX_H : ℤ := 2743200

/-- `LEFT_COL_RATIO = 0.55` from `tools/slides.py`. -/
def LEFT_COL_RATIO : ℚ := 55 / 100

/-- The slide canvas: `prs.slide_width` and `prs.slide_height`, fixed at deck
creation. -/
structure Canvas where
  width : ℤ
  height : ℤ
deriving DecidableEq, Repr

/-- Default canvas of a fresh `Presentation()`: 10 in x 7.5 in. -/
def defaultCanvas : Canvas := ⟨9144000, 6858000⟩

/-- A rectangle in canvas coordinates, as used for shape placement. -/
structure Region where
  left : ℤ
  top : ℤ
  width : ℤ
  height : ℤ
deriving DecidableEq, Repr

/-- Python `int(q)`: truncation toward zero. -/
def pyInt (q : ℚ) : ℤ := if 0 ≤ q then ⌊q⌋ else ⌈q⌉

/-- Right edge of a region. -/
def Region.right (reg : Region) : ℤ := reg.left + reg.width

/-- Bottom edge of a region. -/
def Region.bottom (reg : Region) : ℤ := reg.top + reg.height

/-- Point membership in a region (empty when width or height is
nonpositive). -/
def Region.mem (reg : Region) (x y : ℤ) : Prop :=
  reg.left ≤ x ∧ x < reg.right ∧ reg.top ≤ y ∧ y < reg.bottom

/-- Two regions share no point. -/
def Region.disjointWith (a b : Region) : Prop :=
  ∀ x y : ℤ, ¬ (a.mem x y ∧ b.mem x y)

/-- Every point of the region lies inside the canvas. -/
def Region.withinCanvas (reg : Region) (c : Canvas) : Prop :=
  ∀ x y : ℤ, reg.mem x y → 0 ≤ x ∧ x < c.width ∧ 0 ≤ y ∧ y < c.height

/-- The bullet-column region set on the body placeholder in
`_Deck.add_bullet_slide`:
`left = MARGIN_X`, `top = MARGIN_Y_TOP`,
`width = int(width * ratio) - int(MARGIN_X * 2)`,
`height = height - int(MARGIN_Y_TOP + MARGIN_X)`
(the inner `int(...)` calls are identities on the integer margins). -/
def bulletRegion (c : Canvas) (ratio : ℚ) : Region :=
  { left := MARGIN_X
    top := MARGIN_Y_TOP
    width := pyInt ((c.width : ℚ) * ratio) - 2 * MARGIN_X
    height := c.height - (MARGIN_Y_TOP + MARGIN_X) }

/-- `img_left = int(width * ratio) + int(MARGIN_X)` from
`_Deck._place_images`. -/
def imgLeft (c : Canvas) (ratio : ℚ) : ℤ :=
  pyInt ((c.width : ℚ) * ratio) + MARGIN_X

/-- The image region of `_Deck._place_images`:
`left = img_left`, `top = top_start = MARGIN_Y_TOP`,
`width = avail_w = width - img_left - int(MARGIN_X)`,
`height = avail_h = height - int(MARGIN_Y_TOP)`. -/
def imageRegion (c : Canvas) (ratio : ℚ) : Region :=
  { left := imgLeft c ratio
    top := MARGIN_Y_TOP
    width := c.width - imgLeft c ratio - MARGIN_X
    height := c.height - MARGIN_Y_TOP }

lemma pyInt_nonneg_eq_floor (q : ℚ) (h : 0 ≤ q) : pyInt q = ⌊q⌋ := if_pos h

/-- C1: for any ratio in (0,1) and any canvas of nonnegative width, the
bullet column's right edge lies strictly left of the image region's left
edge, the two regions are disjoint, and each lies within the canvas. -/
theorem geometry_regions_disjoint (c : Canvas) (r : ℚ)
    (hw : 0 ≤ c.width) (h0 : 0 < r) (h1 : r < 1) :
    (bulletRegion c r).right < (imageRegion c r).left ∧
    (bulletRegion c r).disjointWith (imageRegion c r) ∧
    (bulletRegion c r).withinCanvas c ∧
    (imageRegion c r).withinCanvas c := by
  have hq0 : (0 : ℚ) ≤ (c.width : ℚ) * r := by
    have : (0 : ℚ) ≤ (c.width : ℚ) := by exact_mod_cast hw
    exact mul_nonneg this h0.le
  have hfl : pyInt ((c.width : ℚ) * r) = ⌊(c.width : ℚ) * r⌋ :=
    pyInt_nonneg_eq_floor _ hq0
  have hF0 : 0 ≤ ⌊(c.width : ℚ) * r⌋ := Int.floor_nonneg.mpr hq0
  have hFw : ⌊(c.width : ℚ) * r⌋ ≤ c.width := by
    have hle : (c.width : ℚ) * r ≤ (c.width : ℚ) := by
      have : (0 : ℚ) ≤ (c.width : ℚ) := by exact_mod_cast hw
      exact mul_le_of_le_one_right this h1.le
    calc ⌊(c.width : ℚ) * r⌋ ≤ ⌊(c.width : ℚ)⌋ := Int.floor_le_floor hle
    _ = c.width := Int.floor_intCast c.width
  refine ⟨?_, ?_, ?_, ?_⟩
  · simp only [bulletRegion, imageRegion, imgLeft, Region.right, hfl,
      MARGIN_X]
    omega
  · intro x y hmem
    rcases hmem with ⟨⟨_, hb2, _, _⟩, ⟨hi1, _, _, _⟩⟩
    simp only [bulletRegion, imageRegion, imgLeft, Region.right,
      Region.bottom, hfl, MARGIN_X] at hb2 hi1
    omega
  · intro x y hmem
    rcases hmem with ⟨hb1, hb2, hb3, hb4⟩
    simp only [bulletRegion, Region.right, Region.bottom, hfl,
      MARGIN_X, MARGIN_Y_TOP] at hb1 hb2 hb3 hb4
    refine ⟨by omega, by omega, by omega, by omega⟩
  · intro x y hmem
    rcases hmem with ⟨hi1, hi2, hi3, hi4⟩
    simp only [imageRegion, imgLeft, Region.right, Region.bottom, hfl,
      MARGIN_X, MARGIN_Y_TOP] at hi1 hi2 hi3 hi4
    refine ⟨by omega, by omega, by omega, by omega⟩

/-- Witness for C1 at the default canvas and the configured ratio 0.55. -/
theorem geometry_regions_disjoint_witness :
    (bulletRegion defaultCanvas (55 / 100)).right
        < (imageRegion defaultCanvas (55 / 100)).left ∧
    (bulletRegion defaultCanvas (55 / 100)).disjointWith
        (imageRegion defaultCanvas (55 / 100)) ∧
    (bulletRegion defaultCanvas (55 / 100)).withinCanvas defaultCanvas ∧
    (imageRegion defaultCanvas (55 / 100)).withinCanvas defaultCanvas :=
  geometry_regions_disjoint defaultCanvas (55 / 100) (by decide)
    (by norm_num) (by norm_num)

/-- C3 (amended): both regions share `top = MARGIN_Y_TOP`; the bullet
region's height is `height - MARGIN_Y_TOP - MARGIN_X`, while the image
region's height is `height - MARGIN_Y_TOP` (no bottom margin). -/
theorem regions_top_and_height (c : Canvas) (r : ℚ) :
    (bulletRegion c r).top = MARGIN_Y_TOP ∧
    (imageRegion c r).top = MARGIN_Y_TOP ∧
    (bulletRegion c r).height = c.height - MARGIN_Y_TOP - MARGIN_X ∧
    (imageRegion c r).height = c.height - MARGIN_Y_TOP := by
  refine ⟨rfl, rfl, ?_, rfl⟩
  simp only [bulletRegion]
  ring

/-- Counterexample to C3 as stated: at the default canvas the image
region's height is `height - MARGIN_Y_TOP = 5486400`, not
`height - MARGIN_Y_TOP - MARGIN_X = 5120640`. -/
theorem regions_height_counterexample :
    ¬ ((imageRegion defaultCanvas (55 / 100)).height
        = defaultCanvas.height - MARGIN_Y_TOP - MARGIN_X) := by
  decide

/-!
Slide composition.  The body text frame is modelled as the list of its
paragraph texts.  Per the document library, `text_frame.clear()` removes
all paragraphs but a single empty one.
-/

/-- `body_tf.clear()`: a text frame holding one empty paragraph. -/
def clearedTextFrame : List String := [""]

/-- One iteration of the bullet loop in `_Deck.add_bullet_slide`:
`para = body_tf.add_paragraph() if idx else body_tf.paragraphs[0]` followed
by `para.text = bullet`. -/
def addBulletStep (tf : List String) (ib : ℕ × String) : List String :=
  if ib.1 = 0 then tf.set 0 ib.2 else tf ++ [ib.2]

/-- Paragraph texts of the body after the bullet loop of
`_Deck.add_bullet_slide`, starting from the cleared text frame. -/
def bodyParagraphs (bullets : List String) : List String :=
  bullets.enum.foldl addBulletStep clearedTextFrame

lemma foldl_addBulletStep_enumFrom (l : List String) :
    ∀ (k : ℕ) (acc : List String),
      (l.enumFrom (k + 1)).foldl addBulletStep acc = acc ++ l := by
  induction l with
  | nil => intro k acc; simp
  | cons a t ih =>
      intro k acc
      simp only [List.enumFrom, List.foldl_cons]
      rw [show addBulletStep acc (k + 1, a) = acc ++ [a] by
        simp [addBulletStep]]
      rw [ih (k + 1) (acc ++ [a])]
      simp

lemma bodyParagraphs_eq (bullets : List String) :
    bodyParagraphs bullets =
      if bullets.isEmpty then clearedTextFrame else bullets := by
  cases bullets with
  | nil => rfl
  | cons b t =>
      simp only [bodyParagraphs, List.enum, List.enumFrom, List.foldl_cons,
        List.isEmpty_cons, if_neg Bool.false_ne_true]
      rw [show addBulletStep clearedTextFrame (0, b) = [b] by
        simp [addBulletStep, clearedTextFrame]]
      rw [show (1 : ℕ) = 0 + 1 by rfl, foldl_addBulletStep_enumFrom t 0 [b]]
      simp

/-- C2 (amended): composing with N bullets, 1 ≤ N ≤ 50, yields exactly the
N input bullets as paragraphs in input order; composing with 0 bullets
yields a body holding a single empty paragraph (its text is empty). -/
theorem compose_bullets_paragraphs (bullets : List String)
    (hlen : bullets.length ≤ 50) :
    (bullets ≠ [] → bodyParagraphs bullets = bullets) ∧
    (bullets = [] →
      bodyParagraphs bullets = [""] ∧
      String.join (bodyParagraphs bullets) = "") := by
  constructor
  · intro hne
    rw [bodyParagraphs_eq, if_neg (by simpa [List.isEmpty_iff] using hne)]
  · intro he
    subst he
    exact ⟨rfl, rfl⟩

/-- Witness for C2 at a concrete three-bullet list. -/
theorem compose_bullets_paragraphs_witness :
    bodyParagraphs ["a", "b", "c"] = ["a", "b", "c"] :=
  (compose_bullets_paragraphs ["a", "b", "c"] (by decide)).1 (by decide)

/-- Counterexample to C2 as stated: composing with 0 bullets yields a body
text frame with one (empty) paragraph, not exactly 0 paragraphs. -/
theorem compose_zero_bullets_counterexample :
    ¬ ((bodyParagraphs []).length = 0) := by
  decide

/-!
Image placement grid (`_Deck._place_images`).  The per-URL fetch and
decode (`httpx.get` + `add_picture`) is modelled by an oracle `ok` giving
the outcome for the URL at each position; the `except` clause swallows the
failure and the loop advances `col`/`row` regardless.
-/

/-- An image actually drawn on the slide: the position (`idx`) of its URL in
the placed list, the URL, and the grid cell it occupies. -/
structure Placed where
  idx : ℕ
  url : String
  col : ℕ
  row : ℕ
deriving DecidableEq, Repr

/-- `cols = 1 if len(urls) == 1 else 2` from `_Deck._place_images`. -/
def gridCols (urls : List String) : ℕ :=
  if urls.length = 1 then 1 else 2

/-- `rows = (len(urls) + cols - 1) // cols` from `_Deck._place_images`. -/
def gridRows (urls : List String) : ℕ :=
  (urls.length + gridCols urls - 1) / gridCols urls

/-- The `for url in urls` loop of `_Deck._place_images`: draw the picture
when the fetch succeeds, then advance `col` (wrapping into the next row
when `col >= cols`) whether or not the fetch succeeded. -/
def placeLoop (cols : ℕ) (ok : ℕ → Bool) :
    List (ℕ × String) → ℕ → ℕ → List Placed
  | [], _, _ => []
  | (i, u) :: rest, col, row =>
      let here := if ok i then [Placed.mk i u col row] else []
      if col + 1 ≥ cols then here ++ placeLoop cols ok rest 0 (row + 1)
      else here ++ placeLoop cols ok rest (col + 1) row

/-- `_Deck._place_images(slide, urls)` under fetch oracle `ok`: the list of
images drawn, in drawing order. -/
def place_images (urls : List String) (ok : ℕ → Bool) : List Placed :=
  placeLoop (gridCols urls) ok urls.enum 0 0

lemma placeLoop_filter (cols : ℕ) (ok : ℕ → Bool) :
    ∀ (l : List (ℕ × String)) (col row : ℕ),
      placeLoop cols ok l col row =
        (placeLoop cols (fun _ => true) l col row).filter
          (fun p => ok p.idx) := by
  intro l
  induction l with
  | nil => intro col row; rfl
  | cons iu rest ih =>
      intro col row
      obtain ⟨i, u⟩ := iu
      simp only [placeLoop]
      by_cases hc : col + 1 ≥ cols
      · simp only [if_pos hc, List.filter_append, ih]
        cases hok : ok i <;> simp [hok]
      · simp only [if_neg hc, List.filter_append, ih]
        cases hok : ok i <;> simp [hok]

/-!
Slides and the deck.  A slide records its title, body paragraph texts,
placed images and optional speaker notes; the deck is the canvas plus the
ordered slide list of the single module-level `_Deck` instance.
-/

/-- A composed slide, as appended by `_Deck.add_bullet_slide`. -/
structure Slide where
  title : String
  body : List String
  images : List Placed
  notes : Option String
deriving DecidableEq, Repr

/-- The deck: `self.prs`, its canvas and its ordered slide list. -/
structure Deck where
  canvas : Canvas
  slides : List Slide
deriving DecidableEq, Repr

/-- A fresh deck with no slides (a new `Presentation()`). -/
def emptyDeck : Deck := ⟨defaultCanvas, []⟩

/-- Python truthiness of an optional string: `None` and the empty string
are falsy. -/
def pyTruthy : Option String → Bool
  | none => false
  | some t => if t = "" then false else true

/-- Speaker notes attached by `_Deck.add_bullet_slide`: the `if notes:`
guard attaches `notes` only when it is truthy. -/
def slideNotes (notes : Option String) : Option String :=
  if pyTruthy notes then notes else none

/-- `_Deck.add_bullet_slide(title, bullets, images, notes)` under fetch
oracle `ok`: appends one slide whose body holds the bullets, whose images
are `_place_images(slide, images[:4])` when `images` is truthy, and whose
notes follow the `if notes:` guard. -/
def add_bullet_slide (d : Deck) (title : String) (bullets : List String)
    (images : List String) (notes : Option String) (ok : ℕ → Bool) : Deck :=
  let slide : Slide :=
    { title := title
      body := bodyParagraphs bullets
      images := if images.isEmpty then [] else place_images (images.take 4) ok
      notes := slideNotes notes }
  { d with slides := d.slides ++ [slide] }

/-- `_Deck.save(filename)` / `export_pptx(filename)`: what the call
produces.  The source serializes `self.prs` to the path and returns the
path; it performs no reset of the module-level `_deck`, so the in-memory
deck after the call is the same object, unchanged. -/
structure ExportResult where
  path : String
  fileSlides : List Slide
  deckAfter : Deck
deriving DecidableEq, Repr

/-- `export_pptx` / `_Deck.save`: `filename` defaults to a
timestamp-derived name, the path is `OUT_DIR / filename`, the serialized
file holds the deck's slides, and the deck itself is left as is. -/
def export_pptx (d : Deck) (filename : Option String) (now : String) :
    ExportResult :=
  let fname :=
    match filename with
    | some f => f
    | none => "deck_" ++ now ++ ".pptx"
  { path := "slides/" ++ fname
    fileSlides := d.slides
    deckAfter := d }

/-- C5: a failed fetch skips its cell but still advances the grid
position, so the images drawn under any fetch oracle are exactly the
all-successes placement filtered to the successful positions — each
successful image keeps the cell it would have had with no failures.
Moreover slide composition never fails: one slide is appended to the deck
whatever the fetch outcomes. -/
theorem place_images_no_compaction (urls : List String) (ok : ℕ → Bool)
    (_hlen : urls.length ≤ 4) :
    place_images urls ok =
      (place_images urls (fun _ => true)).filter (fun p => ok p.idx) ∧
    (∀ (d : Deck) (t : String) (bs : List String) (nt : Option String),
      (add_bullet_slide d t bs urls nt ok).slides.length
        = d.slides.length + 1) := by
  constructor
  · exact placeLoop_filter (gridCols urls) ok urls.enum 0 0
  · intro d t bs nt
    simp [add_bullet_slide]

/-- Witness for C5: three URLs with the middle fetch failing. -/
theorem place_images_no_compaction_witness :
    place_images ["u0", "u1", "u2"] (fun i => i != 1) =
      (place_images ["u0", "u1", "u2"] (fun _ => true)).filter
        (fun p => p.idx != 1) ∧
    (∀ (d : Deck) (t : String) (bs : List String) (nt : Option String),
      (add_bullet_slide d t bs ["u0", "u1", "u2"] nt
          (fun i => i != 1)).slides.length = d.slides.length + 1) :=
  place_images_no_compaction ["u0", "u1", "u2"] (fun i => i != 1)
    (by decide)

lemma ceilDiv_two (a : ℕ) :
    (((a + 1) / 2 : ℕ) : ℤ) = ⌈(a : ℚ) / 2⌉ := by
  set n : ℕ := (a + 1) / 2 with hn
  have h1 : 2 * n ≤ a + 1 := by omega
  have h2 : a ≤ 2 * n := by omega
  rw [eq_comm, Int.ceil_eq_iff]
  constructor
  · have hc : (2 : ℚ) * (n : ℚ) ≤ (a : ℚ) + 1 := by exact_mod_cast h1
    rw [Int.cast_natCast]
    linarith
  · have hc : (a : ℚ) ≤ 2 * (n : ℚ) := by exact_mod_cast h2
    rw [Int.cast_natCast]
    linarith

/-- C6: for a non-empty URL list the grid uses 1 column when there is
exactly one URL and 2 otherwise, and `rows` is the ceiling of
`len(urls) / cols`; with 3 URLs that is 2 columns and 2 rows, and no image
occupies the fourth cell (col 1, row 1). -/
theorem grid_dimensions (urls : List String) (h : urls ≠ []) :
    gridCols urls = (if urls.length = 1 then 1 else 2) ∧
    ((gridRows urls : ℤ) = ⌈(urls.length : ℚ) / (gridCols urls : ℚ)⌉) ∧
    (urls.length = 3 →
      gridCols urls = 2 ∧ gridRows urls = 2 ∧
      ∀ p ∈ place_images urls (fun _ => true),
        ¬ (p.col = 1 ∧ p.row = 1)) := by
  refine ⟨rfl, ?_, ?_⟩
  · by_cases h1 : urls.length = 1
    · simp [gridRows, gridCols, h1]
    · have hg : gridCols urls = 2 := by simp [gridCols, h1]
      have he : urls.length + 2 - 1 = urls.length + 1 := by omega
      rw [gridRows, hg, he, ceilDiv_two urls.length]
      norm_num
  · intro h3
    obtain ⟨a, b, c2, rfl⟩ := List.length_eq_three.mp h3
    refine ⟨by simp [gridCols], by simp [gridRows, gridCols], ?_⟩
    have hpl : place_images [a, b, c2] (fun _ => true) =
        [Placed.mk 0 a 0 0, Placed.mk 1 b 1 0, Placed.mk 2 c2 0 1] := rfl
    intro p hp
    rw [hpl] at hp
    simp only [List.mem_cons, List.not_mem_nil, or_false] at hp
    rcases hp with rfl | rfl | rfl <;> simp

/-- Witness for C6 at a concrete three-URL list. -/
theorem grid_dimensions_witness :
    gridCols ["u1", "u2", "u3"]
        = (if (["u1", "u2", "u3"] : List String).length = 1 then 1 else 2) ∧
    ((gridRows ["u1", "u2", "u3"] : ℤ)
        = ⌈((["u1", "u2", "u3"] : List String).length : ℚ)
            / (gridCols ["u1", "u2", "u3"] : ℚ)⌉) ∧
    ((["u1", "u2", "u3"] : List String).length = 3 →
      gridCols ["u1", "u2", "u3"] = 2 ∧ gridRows ["u1", "u2", "u3"] = 2 ∧
      ∀ p ∈ place_images ["u1", "u2", "u3"] (fun _ => true),
        ¬ (p.col = 1 ∧ p.row = 1)) :=
  grid_dimensions ["u1", "u2", "u3"] (by decide)

/-- C7: with more than 4 images, `add_bullet_slide` hands only the first
4 to the placement grid — the composed deck is the same as if only the
first 4 had been passed, and no error is raised. -/
theorem images_capped_at_four (d : Deck) (t : String) (bs : List String)
    (imgs : List String) (nt : Option String) (ok : ℕ → Bool)
    (h : 4 < imgs.length) :
    add_bullet_slide d t bs imgs nt ok
      = add_bullet_slide d t bs (imgs.take 4) nt ok := by
  have h1 : imgs.isEmpty = false := by
    cases imgs with
    | nil => simp at h
    | cons a l => rfl
  have h2 : (imgs.take 4).isEmpty = false := by
    cases imgs with
    | nil => simp at h
    | cons a l => rfl
  simp [add_bullet_slide, h1, h2, List.take_take]

/-- Witness for C7 at a five-URL list. -/
theorem images_capped_at_four_witness :
    add_bullet_slide emptyDeck "t" ["b"] ["u1", "u2", "u3", "u4", "u5"]
        none (fun _ => true)
      = add_bullet_slide emptyDeck "t" ["b"]
          ((["u1", "u2", "u3", "u4", "u5"] : List String).take 4)
          none (fun _ => true) :=
  images_capped_at_four emptyDeck "t" ["b"] ["u1", "u2", "u3", "u4", "u5"]
    none (fun _ => true) (by decide)

/-- C10: composing with `notes = ""` attaches no speaker notes — the
`if notes:` guard makes an empty notes string behave exactly like an
absent one, while any non-empty notes string is attached verbatim. -/
theorem empty_notes_like_absent :
    (∀ (d : Deck) (t : String) (bs : List String) (imgs : List String)
        (ok : ℕ → Bool),
      add_bullet_slide d t bs imgs (some "") ok
        = add_bullet_slide d t bs imgs none ok) ∧
    (∀ s : String, s ≠ "" → slideNotes (some s) = some s) := by
  constructor
  · intro d t bs imgs ok
    simp [add_bullet_slide, slideNotes, pyTruthy]
  · intro s hs
    simp [slideNotes, pyTruthy, hs]

/-- Witness for C10: non-empty notes are attached verbatim. -/
theorem empty_notes_like_absent_witness :
    slideNotes (some "abc") = some "abc" :=
  empty_notes_like_absent.2 "abc" (by decide)

/-- C4 (amended): export serializes the deck's slides to the returned
path, but the deck is not discarded — the in-memory deck after export is
unchanged, so slides composed before an export remain in the deck. -/
theorem export_preserves_deck (d : Deck) (filename : Option String)
    (now : String) :
    (export_pptx d filename now).fileSlides = d.slides ∧
    (export_pptx d filename now).deckAfter = d :=
  ⟨rfl, rfl⟩

/-- Counterexample to C4 as stated: a deck holding one composed slide
still holds it after export — the slide list after export is not
empty. -/
theorem export_discards_deck_counterexample :
    ¬ ((export_pptx (add_bullet_slide emptyDeck "t" ["b"] [] none
          (fun _ => true)) none "now").deckAfter.slides.length = 0) := by
  decide

/-!
Image search (`tools/images.py`, `fetch_images`).  The Unsplash API is an
oracle mapping a page number to either an HTTP error status or the pair
(result URLs of that page, `total_pages` of that payload); `random.shuffle`
is an oracle permutation.  Errors are the two exception kinds the function
raises: `ValueError` for an out-of-bounds count, `RuntimeError` wrapping an
HTTP status error.
-/

/-- The exceptions `fetch_images` can raise. -/
inductive FetchErr where
  | valueError : FetchErr
  | runtimeError : ℕ → FetchErr
deriving DecidableEq, Repr

/-- The fallback placeholder URL of `fetch_images`. -/
def fallbackURL : String :=
  "https://dummyimage.com/800x600/cccccc/000000&text=Sin+imagen"

/-- The `while len(collected) < n` pagination loop of `fetch_images`,
returning the collected URLs (or the wrapped HTTP error) together with the
number of API calls made.  Each continuing iteration collects at least one
photo, so fuel `n` makes the fuel-exhaustion branch (which returns as the
exited loop would) unreachable before the condition turns false. -/
def fetchLoop (api : ℕ → Except ℕ (List String × ℕ)) (n : ℕ) :
    ℕ → ℕ → List String → ℕ → (Except FetchErr (List String)) × ℕ
  | 0, _, collected, calls => (Except.ok collected, calls)
  | fuel + 1, page, collected, calls =>
      if collected.length < n then
        match api page with
        | Except.error code =>
            (Except.error (FetchErr.runtimeError code), calls + 1)
        | Except.ok (photos, totalPages) =>
            if photos = [] then (Except.ok collected, calls + 1)
            else if page + 1 > totalPages then
              (Except.ok (collected ++ photos), calls + 1)
            else
              fetchLoop api n fuel (page + 1) (collected ++ photos)
                (calls + 1)
      else (Except.ok collected, calls)

/-- `fetch_images(query, n)` under API oracle `api` and shuffle oracle
`shuffle`: validates `1 <= n <= 50` before any call, paginates from page 1,
falls back to `[fallback] * n` when nothing was collected, and otherwise
returns the shuffled collection truncated to `n`.  The second component
counts the API calls made. -/
def fetch_images (n : ℤ) (api : ℕ → Except ℕ (List String × ℕ))
    (shuffle : List String → List String) :
    (Except FetchErr (List String)) × ℕ :=
  if n < 1 ∨ 50 < n then (Except.error FetchErr.valueError, 0)
  else
    match fetchLoop api n.toNat n.toNat 1 [] 0 with
    | (Except.error e, calls) => (Except.error e, calls)
    | (Except.ok collected, calls) =>
        if collected = [] then
          (Except.ok (List.replicate n.toNat fallbackURL), calls)
        else (Except.ok ((shuffle collected).take n.toNat), calls)

lemma fetchLoop_no_valueError (api : ℕ → Except ℕ (List String × ℕ))
    (n : ℕ) :
    ∀ (fuel page calls : ℕ) (collected : List String),
      (fetchLoop api n fuel page collected calls).1
        ≠ Except.error FetchErr.valueError := by
  intro fuel
  induction fuel with
  | zero => intro page calls collected; simp [fetchLoop]
  | succ f ih =>
      intro page calls collected
      simp only [fetchLoop]
      by_cases hlt : collected.length < n
      · simp only [if_pos hlt]
        cases hapi : api page with
        | error code => simp
        | ok pr =>
            obtain ⟨photos, totalPages⟩ := pr
            by_cases hp : photos = []
            · simp [hp]
            · simp only [if_neg hp]
              by_cases htp : page + 1 > totalPages
              · simp [htp]
              · simp only [if_neg htp]
                exact ih (page + 1) (calls + 1) (collected ++ photos)
      · simp [if_neg hlt]

/-- C8: when the search yields no results (the API returns an empty result
list on page 1), `fetch_images` returns the placeholder URL replicated `n`
times — a non-empty list with one entry per requested image — rather than
an empty list or an error. -/
theorem fetch_images_fallback (n : ℤ)
    (api : ℕ → Except ℕ (List String × ℕ))
    (shuffle : List String → List String) (totalPages : ℕ)
    (h1 : 1 ≤ n) (h50 : n ≤ 50)
    (hapi : api 1 = Except.ok ([], totalPages)) :
    (fetch_images n api shuffle).1
        = Except.ok (List.replicate n.toNat fallbackURL) ∧
    List.replicate n.toNat fallbackURL ≠ [] ∧
    (List.replicate n.toNat fallbackURL).length = n.toNat := by
  have hcond : ¬ (n < 1 ∨ 50 < n) := by omega
  have hm : ∃ m : ℕ, n.toNat = m + 1 := by
    refine ⟨n.toNat - 1, ?_⟩
    omega
  obtain ⟨m, hm⟩ := hm
  have hloop : fetchLoop api n.toNat n.toNat 1 [] 0
      = (Except.ok [], 1) := by
    rw [hm]
    simp [fetchLoop, hapi]
  constructor
  · rw [fetch_images, if_neg hcond, hloop]
    simp
  · constructor
    · simp [hm]
    · simp

/-- Witness for C8: two images requested, the API finds nothing. -/
theorem fetch_images_fallback_witness :
    (fetch_images 2 (fun _ => Except.ok ([], 0)) id).1
        = Except.ok (List.replicate (2 : ℤ).toNat fallbackURL) ∧
    List.replicate (2 : ℤ).toNat fallbackURL ≠ [] ∧
    (List.replicate (2 : ℤ).toNat fallbackURL).length = (2 : ℤ).toNat :=
  fetch_images_fallback 2 (fun _ => Except.ok ([], 0)) id 0
    (by norm_num) (by norm_num) rfl

/-- C9: an image count outside the bounds 1..50 raises `ValueError`
before any API call is made (zero calls performed); a count within bounds
never raises `ValueError`. -/
theorem fetch_images_bounds (n : ℤ)
    (api : ℕ → Except ℕ (List String × ℕ))
    (shuffle : List String → List String) :
    ((n < 1 ∨ 50 < n) →
      fetch_images n api shuffle = (Except.error FetchErr.valueError, 0)) ∧
    (1 ≤ n → n ≤ 50 →
      (fetch_images n api shuffle).1 ≠ Except.error FetchErr.valueError) := by
  constructor
  · intro hout
    rw [fetch_images, if_pos hout]
  · intro h1 h50
    have hcond : ¬ (n < 1 ∨ 50 < n) := by omega
    rw [fetch_images, if_neg hcond]
    have hfl := fetchLoop_no_valueError api n.toNat n.toNat 1 0 []
    rcases hres : fetchLoop api n.toNat n.toNat 1 [] 0 with ⟨r, calls⟩
    rw [hres] at hfl
    cases r with
    | error e =>
        simp only []
        intro hcontra
        apply hfl
        simp at hcontra
        simp [hcontra]
    | ok collected =>
        by_cases hc : collected = [] <;> simp [hc]

/-- Witness for C9: a count of 0 is rejected with no API call; a count of
5 is not rejected as invalid. -/
theorem fetch_images_bounds_witness :
    fetch_images 0 (fun _ => Except.ok ([], 0)) id
        = (Except.error FetchErr.valueError, 0) ∧
    (fetch_images 5 (fun _ => Except.ok ([], 0)) id).1
        ≠ Except.error FetchErr.valueError :=
  ⟨(fetch_images_bounds 0 (fun _ => Except.ok ([], 0)) id).1
      (by norm_num),
   (fetch_images_bounds 5 (fun _ => Except.ok ([], 0)) id).2
      (by norm_num) (by norm_num)⟩

end AutoSlides
